import Mathlib

/-!
Verification development for the Regalyzer registry-forensics toolkit.

The Python sources under regalyzer/ are shallowly embedded here:
byte strings become `List Nat` (each element a byte value below 256),
Python `str` values become Lean `String`, fallible operations return
`Option` or `Except`, and an exception that escapes a function is an
`Except.error`.  Every definition mirrors one Python function or one
delimited slice of a parser body; the mirrored source location is named
in the doc comment.
-/

namespace Regalyzer

/-! ## Byte-level helpers (struct.unpack_from, slicing) -/

/-- Python slice `data[a:b]` on a byte string (for `0 ≤ a, b`): the
elements from index `a` up to (excluding) index `b`, silently truncated
at the end of the buffer and empty when `a` is past the end. -/
def pySlice (data : List Nat) (a b : Nat) : List Nat :=
  (data.drop a).take (b - a)

/-- Mirrors `struct.unpack_from` with a little-endian unsigned format of
`size` bytes at `offset`: `none` models the `struct.error` raised when
the buffer is too short. -/
def unpackLE (data : List Nat) (offset size : Nat) : Option Nat :=
  if offset + size ≤ data.length then
    some ((pySlice data offset (offset + size)).reverse.foldl
      (fun acc b => acc * 256 + b % 256) 0)
  else
    none

/-! ## Uppercase hexadecimal rendering (Python format spec `02X`) -/

/-- Uppercase hexadecimal digit for `n < 16`. -/
def hexDigitU (n : Nat) : Char :=
  if n < 10 then Char.ofNat (48 + n) else Char.ofNat (55 + n)

/-- Fuel-driven digit accumulator for `hexDigits`; `fuel = n + 1` always
suffices because the argument shrinks by a factor of 16 each step. -/
def hexDigitsAux : Nat → Nat → List Char
  | 0, _ => []
  | f + 1, n =>
    if n < 16 then [hexDigitU n]
    else hexDigitsAux f (n / 16) ++ [hexDigitU (n % 16)]

/-- Uppercase hexadecimal digit list of a natural number (most
significant digit first), one digit for `n < 16`. -/
def hexDigits (n : Nat) : List Char :=
  hexDigitsAux (n + 1) n

/-- Python format `02X` applied to a byte value: uppercase hexadecimal,
left-padded with zeros to width two. -/
def pyHex02 (n : Nat) : String :=
  let ds := hexDigits n
  ⟨List.replicate (2 - ds.length) '0' ++ ds⟩

/-- Embedding of `utils.format_mac_address` (utils.py, lines 196-200).
The Python guard returns "N/A" for non-bytes input or byte strings
shorter than six bytes; byte strings of six or more bytes are rendered
whole as colon-separated uppercase hexadecimal octets. -/
def format_mac_address (mac_bytes : List Nat) : String :=
  if mac_bytes.length < 6 then "N/A"
  else String.intercalate ":" (mac_bytes.map pyHex02)

example : format_mac_address [0x00, 0x1A, 0x2B, 0x3C, 0x4D, 0x5E] = "00:1A:2B:3C:4D:5E" := by
  decide

example : format_mac_address [0x00, 0x1A, 0x2B, 0x3C, 0x4D] = "N/A" := by decide

example : format_mac_address [0, 0, 0, 0, 0, 0, 0] = "00:00:00:00:00:00:00" := by decide

/-! ## Python string primitives

Python strings are sequences of code points; the embedding works on the
`List Char` carried by a Lean `String`. -/

/-- Fuel-driven worker for `pyReplace`; fuel bounded by the length of the
remaining text always suffices. -/
def pyReplaceAux (pat rep : List Char) : Nat → List Char → List Char
  | 0, l => l
  | _ + 1, [] => []
  | f + 1, c :: rest =>
    if pat ≠ [] ∧ pat.isPrefixOf (c :: rest) then
      rep ++ pyReplaceAux pat rep f ((c :: rest).drop pat.length)
    else
      c :: pyReplaceAux pat rep f rest

/-- Python `s.replace(pat, rep)` for a non-empty pattern: every
non-overlapping occurrence, scanning left to right, is replaced. -/
def pyReplace (s pat rep : String) : String :=
  ⟨pyReplaceAux pat.data rep.data s.data.length s.data⟩

example : pyReplace "a\\b\\c" "\\" "/" = "a/b/c" := by decide
example : pyReplace "%SystemRoot%/x" "%SystemRoot%" "Windows" = "Windows/x" := by decide

/-- Python `s.split(sep)` for a single-character separator: splits at
every occurrence, keeping empty pieces; the result is never empty. -/
def pySplitChar (s : String) (sep : Char) : List String :=
  (s.data.foldr
    (fun c (acc : List (List Char)) =>
      match acc with
      | [] => [[c]]
      | cur :: done => if c = sep then [] :: cur :: done else (c :: cur) :: done)
    [[]]).map (fun l => ⟨l⟩)

example : pySplitChar "5&1a2b&0" '&' = ["5", "1a2b", "0"] := by decide
example : pySplitChar "" '&' = [""] := by decide
example : pySplitChar "abc" '&' = ["abc"] := by decide

/-- Python `key.startswith(p)`. -/
def pyStartsWith (s p : String) : Bool :=
  p.data.isPrefixOf s.data

/-- Python `s.strip('/')`: removes the character from both ends. -/
def pyStripSlash (s : String) : String :=
  ⟨((s.data.dropWhile (· = '/')).reverse.dropWhile (· = '/')).reverse⟩

example : pyStripSlash "//a/b//" = "a/b" := by decide

/-- Decimal digit list of a natural number, most significant first
(fuel-driven worker). -/
def decDigitsAux : Nat → Nat → List Char
  | 0, _ => []
  | f + 1, n =>
    if n < 10 then [Char.ofNat (48 + n)]
    else decDigitsAux f (n / 10) ++ [Char.ofNat (48 + n % 10)]

/-- Decimal rendering of a natural number (Python `str(n)` for `n ≥ 0`). -/
def decRepr (n : Nat) : String :=
  ⟨decDigitsAux (n + 1) n⟩

/-- Zero-padding to a minimum width, as in Python format spec `0Nd` for a
non-negative integer. -/
def zeroPad (width : Nat) (s : String) : String :=
  ⟨List.replicate (width - s.data.length) '0' ++ s.data⟩

example : zeroPad 3 (decRepr 7) = "007" := by decide
example : zeroPad 2 (decRepr 42) = "42" := by decide

/-! ## Calendar arithmetic of the Python datetime module

A Python `datetime` (always UTC here) is represented by its microsecond
offset from 0001-01-01 00:00:00; the proleptic Gregorian calendar rules
below are those of CPython's datetime module. -/

/-- Gregorian leap-year test. -/
def isLeapYear (y : Nat) : Bool :=
  y % 4 = 0 && (y % 100 ≠ 0 || y % 400 = 0)

/-- Number of days in years 1 .. y-1 (Python `_days_before_year`). -/
def daysBeforeYear (y : Nat) : Nat :=
  let n := y - 1
  n * 365 + n / 4 - n / 100 + n / 400

/-- Month lengths for a given leap flag, January first. -/
def monthLengths (leap : Bool) : List Nat :=
  [31, if leap then 29 else 28, 31, 30, 31, 30, 31, 31, 30, 31, 30, 31]

/-- Walk the month-length table: from a 0-based day number within a year,
produce the 1-based month and day. -/
def monthDayFrom : List Nat → Nat → Nat → Nat × Nat
  | [], m, n => (m, n + 1)
  | len :: rest, m, n => if n < len then (m, n + 1) else monthDayFrom rest (m + 1) (n - len)

/-- Proleptic-Gregorian ordinal (day 1 = 0001-01-01) to a year, month,
day triple, mirroring CPython `_ord2ymd`. -/
def ord2ymd (ordinal : Nat) : Nat × Nat × Nat :=
  let n := ordinal - 1
  let n400 := n / 146097
  let r400 := n % 146097
  let n100 := r400 / 36524
  let r100 := r400 % 36524
  let n4 := r100 / 1461
  let r4 := r100 % 1461
  let n1 := r4 / 365
  let r1 := r4 % 365
  let year := n400 * 400 + n100 * 100 + n4 * 4 + n1 + 1
  if n1 = 4 ∨ n100 = 4 then (year - 1, 12, 31)
  else
    let (m, d) := monthDayFrom (monthLengths (isLeapYear year)) 1 r1
    (year, m, d)

example : ord2ymd 1 = (1, 1, 1) := by decide
example : ord2ymd (daysBeforeYear 1601 + 1) = (1601, 1, 1) := by decide
example : ord2ymd (daysBeforeYear 2024 + 31 + 29) = (2024, 2, 29) := by decide

/-- Render date and time components as `%Y-%m-%d %H:%M:%S` does on the
reference platform: the year unpadded (always at least four digits for
the years arising from FILETIME decoding), the remaining fields
zero-padded to two digits. -/
def strftimeYmdHms (y mo d h mi s : Nat) : String :=
  decRepr y ++ "-" ++ zeroPad 2 (decRepr mo) ++ "-" ++ zeroPad 2 (decRepr d) ++ " " ++
    zeroPad 2 (decRepr h) ++ ":" ++ zeroPad 2 (decRepr mi) ++ ":" ++ zeroPad 2 (decRepr s)

/-- Render the datetime that lies `micros` microseconds after
1601-01-01 00:00:00 UTC with `%Y-%m-%d %H:%M:%S`. -/
def strftimeOfMicros1601 (micros : Nat) : String :=
  let days := micros / 86400000000
  let (y, m, d) := ord2ymd (daysBeforeYear 1601 + 1 + days)
  let secs := micros / 1000000 % 86400
  strftimeYmdHms y m d (secs / 3600) (secs / 60 % 60) (secs % 60)

example : strftimeOfMicros1601 0 = "1601-01-01 00:00:00" := by decide

/-- Largest representable microsecond offset from 1601-01-01 plus one:
`datetime(1601,1,1) + timedelta(microseconds=k)` raises `OverflowError`
exactly when `k` is at least this bound (the result would reach year
10000). -/
def datetimeRangeMicros1601 : Nat :=
  (daysBeforeYear 10000 - daysBeforeYear 1601) * 86400000000

example : datetimeRangeMicros1601 = 265046774400000000 := by decide

/-! ## FILETIME decoding (utils.py) -/

/-- Python exceptions distinguished by the embedding. -/
inductive PyExc where
  | overflowError
  | valueError
  | typeError
  deriving DecidableEq, Repr

instance {ε α : Type} [DecidableEq ε] [DecidableEq α] : DecidableEq (Except ε α) := fun x y =>
  match x, y with
  | .ok a, .ok b =>
    if h : a = b then .isTrue (by rw [h]) else .isFalse (by intro hc; cases hc; exact h rfl)
  | .error a, .error b =>
    if h : a = b then .isTrue (by rw [h]) else .isFalse (by intro hc; cases hc; exact h rfl)
  | .ok _, .error _ => .isFalse (by intro hc; cases hc)
  | .error _, .ok _ => .isFalse (by intro hc; cases hc)

/-- Embedding of `utils.filetime_to_datetime` (utils.py, lines 19-26): a
raw 64-bit FILETIME becomes `some` microsecond offset from 1601-01-01
UTC, or `none` for the two sentinels and for counts whose datetime falls
outside the representable range (the `OverflowError` is caught there). -/
def filetime_to_datetime (filetime : Nat) : Option Nat :=
  if filetime = 0 ∨ filetime = 0x7FFFFFFFFFFFFFFF then none
  else if filetime / 10 < datetimeRangeMicros1601 then some (filetime / 10)
  else none

/-- Embedding of `utils.format_report_dt` (utils.py, lines 39-41). -/
def format_report_dt (dt : Option Nat) : String :=
  match dt with
  | some micros => strftimeOfMicros1601 micros
  | none => "N/A"

/-- Embedding of `utils.format_datetime_obj` (utils.py, lines 66-74):
`some` microsecond offset models a datetime instance, `none` models any
non-datetime argument. -/
def format_datetime_obj (dt : Option Nat) : String :=
  match dt with
  | some micros => strftimeOfMicros1601 micros
  | none => "N/A"

/-- Embedding of `utils.format_filetime` (utils.py, lines 93-101) on an
integer argument.  The function returns "N/A" only for `0`; its
`try/except` clause catches `ValueError` and `OSError`, neither of which
the datetime arithmetic raises, so an out-of-range count escapes as an
uncaught `OverflowError`, modelled as `Except.error`. -/
def format_filetime (filetime : Nat) : Except PyExc String :=
  if filetime = 0 then .ok "N/A"
  else if filetime / 10 < datetimeRangeMicros1601 then
    .ok (strftimeOfMicros1601 (filetime / 10))
  else
    .error .overflowError

example : format_filetime 0 = .ok "N/A" := by decide
example : format_filetime 0x7FFFFFFFFFFFFFFF = .error .overflowError := by decide
example : filetime_to_datetime 0x7FFFFFFFFFFFFFFF = none := by decide
example : format_filetime 116444736000000000 = .ok "1970-01-01 00:00:00" := by decide

/-! ## Text codecs (Python bytes.decode) -/

/-- Python `bytes.decode('utf-16-le', errors=...)`: 16-bit little-endian
units; surrogate pairs combine; an unpaired surrogate or a lone trailing
byte is an error unit, rendered as U+FFFD when `repl` is true (errors
equal to replace) and dropped when false (errors equal to ignore). -/
def decodeUtf16leAux (repl : Bool) : Nat → List Nat → List Char
  | 0, _ => []
  | _ + 1, [] => []
  | _ + 1, [_] => if repl then [Char.ofNat 0xFFFD] else []
  | f + 1, lo :: hi :: rest =>
    let u := lo % 256 + 256 * (hi % 256)
    if u < 0xD800 || 0xE000 ≤ u then
      Char.ofNat u :: decodeUtf16leAux repl f rest
    else if u < 0xDC00 then
      match rest with
      | lo2 :: hi2 :: rest2 =>
        let u2 := lo2 % 256 + 256 * (hi2 % 256)
        if 0xDC00 ≤ u2 && u2 < 0xE000 then
          Char.ofNat (0x10000 + (u - 0xD800) * 1024 + (u2 - 0xDC00)) ::
            decodeUtf16leAux repl f rest2
        else
          (if repl then [Char.ofNat 0xFFFD] else []) ++ decodeUtf16leAux repl f rest
      | _ =>
        (if repl then [Char.ofNat 0xFFFD] else []) ++ decodeUtf16leAux repl f rest
    else
      (if repl then [Char.ofNat 0xFFFD] else []) ++ decodeUtf16leAux repl f rest

/-- Python `bytes.decode('utf-16-le', errors=...)` (see
`decodeUtf16leAux`; a fuel of the byte count always suffices because
each step consumes at least two bytes). -/
def decodeUtf16le (repl : Bool) (bs : List Nat) : List Char :=
  decodeUtf16leAux repl bs.length bs

example : decodeUtf16le true [65, 0, 66, 0] = ['A', 'B'] := by decide
example : decodeUtf16le true [65, 0, 66] = ['A', Char.ofNat 0xFFFD] := by decide

/-- Python `bytes.decode('ascii', 'ignore')`: bytes below 128 become
characters, the rest are dropped. -/
def decodeAsciiIgnore (bs : List Nat) : List Char :=
  bs.filterMap (fun b => if b % 256 < 128 then some (Char.ofNat (b % 256)) else none)

/-- Python `data.split(b'\x00\x00')[0]`: the bytes before the first
occurrence of two consecutive zero bytes (the whole input when none). -/
def takeToDoubleNull : List Nat → List Nat
  | a :: b :: rest => if a = 0 ∧ b = 0 then [] else a :: takeToDoubleNull (b :: rest)
  | l => l

example : takeToDoubleNull [65, 0, 0, 0, 66] = [65] := by decide

/-! ## V-blob string extraction (utils.py) -/

/-- Embedding of `utils.parse_v_string` (utils.py, lines 28-37).  The two
32-bit reads raise `struct.error` (caught, giving `none`) when the blob
is shorter than the fixed word location plus four; Python slicing past
the end never raises, so an out-of-range computed offset or overlong
length silently truncates the sliced bytes before decoding with
`utf-16-le, errors=replace`.  A zero length gives `none`. -/
def parse_v_string (v_data : List Nat) (offset_loc len_loc : Nat) : Option String :=
  match unpackLE v_data offset_loc 4 with
  | none => none
  | some rawOffset =>
    match unpackLE v_data len_loc 4 with
    | none => none
    | some len =>
      let offset := rawOffset + 0xCC
      if 0 < len then some ⟨decodeUtf16le true (pySlice v_data offset (offset + len))⟩
      else none

/-! ## Registry value model -/

/-- Decoded payload of a registry value, as surfaced by the Registry
library: a string, an unsigned integer, a byte string, or a list of
strings (REG_MULTI_SZ). -/
inductive RegVal where
  | vStr (s : String)
  | vInt (n : Nat)
  | vBytes (b : List Nat)
  | vStrList (l : List String)
  deriving DecidableEq, Repr

/-- Embedding of `utils.get_value` (utils.py, lines 43-48) over the value
list of one key: the named value's payload, or the supplied default when
the key has no value of that name. -/
def get_value (values : List (String × RegVal)) (name : String) (default : RegVal) : RegVal :=
  (values.lookup name).getD default

/-! ## SAM account enumeration (parsers/sam_parser.py) -/

/-- Python `int(s, 16)` restricted to plain hexadecimal digit strings
(the form taken by SAM user subkey names); `none` models the
`ValueError` raised on any other name. -/
def int16Parse (s : String) : Option Nat :=
  if s.data = [] then none
  else
    s.data.foldl
      (fun acc c =>
        match acc with
        | none => none
        | some a =>
          if '0' ≤ c ∧ c ≤ '9' then some (a * 16 + (c.toNat - 48))
          else if 'a' ≤ c ∧ c ≤ 'f' then some (a * 16 + (c.toNat - 87))
          else if 'A' ≤ c ∧ c ≤ 'F' then some (a * 16 + (c.toNat - 55))
          else none)
      (some 0)

example : int16Parse "000001F4" = some 500 := by decide
example : int16Parse "Names" = none := by decide

/-- One subkey of `SAM\Domains\Account\Users` as the parser reads it:
its name, the payloads of its F and V values when present, and its
last-write timestamp (microseconds from 1601-01-01 UTC). -/
structure UserKeyEntry where
  keyName : String
  fData : Option (List Nat)
  vData : Option (List Nat)
  timestampMicros : Nat
  deriving DecidableEq, Repr

/-- The per-account dictionary assembled by `sam_parser.run`
(sam_parser.py, lines 73-85). -/
structure SamAccount where
  rid : Nat
  userName : Option String
  fullName : Option String
  userComment : Option String
  creationTime : Nat
  lastLogon : Option Nat
  pwdLastSet : Option Nat
  accountExpires : Option Nat
  lastIncorrectPassword : Option Nat
  loginCount : Nat
  badPasswordCount : Nat
  userAccountControl : Nat
  ntlmHash : String
  rawHashLine : String
  sourceKey : String
  deriving DecidableEq, Repr

/-- Body of the user loop of `sam_parser.run` (sam_parser.py, lines
64-85) for one subkey: `Except.error` models any exception raised for
this record (a non-hexadecimal key name, a missing F or V value, or a
`struct.error` from a too-short F blob), which the source propagates to
the handler at lines 138-141.  The reads happen in source order: the
five F unpacks can fail, the V-string extraction cannot. -/
def decode_sam_user (hash_lookup : List (Nat × String × String)) (users_key_path : String)
    (e : UserKeyEntry) : Except Unit SamAccount :=
  match int16Parse e.keyName with
  | none => .error ()
  | some rid =>
  match e.fData with
  | none => .error ()
  | some f =>
  match e.vData with
  | none => .error ()
  | some v =>
  match unpackLE f 8 8 with
  | none => .error ()
  | some q8 =>
  match unpackLE f 24 8 with
  | none => .error ()
  | some q24 =>
  match unpackLE f 32 8 with
  | none => .error ()
  | some q32 =>
  match unpackLE f 40 8 with
  | none => .error ()
  | some q40 =>
  match unpackLE f 66 2 with
  | none => .error ()
  | some h66 =>
  match unpackLE f 64 2 with
  | none => .error ()
  | some h64 =>
  match unpackLE f 48 4 with
  | none => .error ()
  | some i48 =>
  let hashData := hash_lookup.lookup rid
  .ok {
    rid := rid
    userName := parse_v_string v 12 16
    fullName := parse_v_string v 24 28
    userComment := parse_v_string v 36 40
    creationTime := e.timestampMicros
    lastLogon := filetime_to_datetime q8
    pwdLastSet := filetime_to_datetime q24
    accountExpires := filetime_to_datetime q32
    lastIncorrectPassword := filetime_to_datetime q40
    loginCount := h66
    badPasswordCount := h64
    userAccountControl := i48
    ntlmHash := (hashData.map (·.1)).getD "Not Found"
    rawHashLine := (hashData.map (·.2)).getD "Not Found"
    sourceKey := users_key_path ++ "\\" ++ e.keyName
  }

/-- The user enumeration loop of `sam_parser.run` (sam_parser.py, lines
61-85): subkeys named "Names" are skipped; the first record whose decode
raises aborts the whole enumeration (`Except.error`, reaching the
module-level handler that returns False), otherwise all decoded accounts
are collected in order. -/
def sam_enumerate (hash_lookup : List (Nat × String × String)) (users_key_path : String) :
    List UserKeyEntry → Except Unit (List SamAccount)
  | [] => .ok []
  | e :: rest =>
    if e.keyName = "Names" then sam_enumerate hash_lookup users_key_path rest
    else
      match decode_sam_user hash_lookup users_key_path e with
      | .error err => .error err
      | .ok acc =>
        match sam_enumerate hash_lookup users_key_path rest with
        | .error err => .error err
        | .ok accs => .ok (acc :: accs)

/-! ## USB storage correlation (parsers/storage_parser.py) -/

/-- One entry of the `usb_info_map` index built at storage_parser.py,
lines 38-54: the fields merged into a storage record on a successful
prefix match.  `last_connected` is already a formatted timestamp string
when stored in the index. -/
structure UsbInfo where
  vid : String
  pid : String
  last_connected : String
  hardware_id : String
  deriving DecidableEq, Repr

/-- The identity and timestamp fields assembled for one USBSTOR serial
key by storage_parser.py, lines 84-101. -/
structure UsbStorageRecord where
  serialFull : String
  serialShort : String
  vid : String
  pid : String
  lastConnected : String
  hardwareId : String
  firstInstalled : String
  deriving DecidableEq, Repr

/-- Body of the USBSTOR serial loop of `storage_parser.run`
(storage_parser.py, lines 84-101): the four identity fields start at
"N/A"; the short serial is the full serial up to the first ampersand;
the first index entry (in index iteration order) whose key starts with
the short serial is merged; afterwards an "N/A" last-connected value is
replaced by the first-installed timestamp of the serial key itself
(passed here already formatted, as `format_datetime_obj` of the key
timestamp). -/
def usb_correlate (usb_info_map : List (String × UsbInfo))
    (serial_number_full first_installed : String) : UsbStorageRecord :=
  let serial_number_short := (pySplitChar serial_number_full '&').headD ""
  let found := usb_info_map.find? (fun p => pyStartsWith p.1 serial_number_short)
  let vid := match found with | some (_, d) => d.vid | none => "N/A"
  let pid := match found with | some (_, d) => d.pid | none => "N/A"
  let lastConnected0 := match found with | some (_, d) => d.last_connected | none => "N/A"
  let hardwareId := match found with | some (_, d) => d.hardware_id | none => "N/A"
  let lastConnected := if lastConnected0 = "N/A" then first_installed else lastConnected0
  { serialFull := serial_number_full
    serialShort := serial_number_short
    vid := vid
    pid := pid
    lastConnected := lastConnected
    hardwareId := hardwareId
    firstInstalled := first_installed }

example :
    (usb_correlate [("5&1a2b3c4d&0", ⟨"0781", "5567", "2024-01-01 00:00:00", "USB\\VID_0781"⟩)]
      "5&1a2b3c4d&0&5C0000000000" "2024-02-02 00:00:00").vid = "0781" := by decide

example :
    (usb_correlate [] "AB&X" "2024-02-02 00:00:00").lastConnected = "2024-02-02 00:00:00" := by
  decide

/-! ## Control-set resolution (storage_parser.py, bam_parser.py, os_info_parser.py)

Each slice below is a function of the value list of the `Select` key of
an already opened SYSTEM hive; the rest of each `run` body is out of the
slice and noted in the doc comment. -/

/-- Python `f-string ControlSet{n:03d}` segment for a non-negative
integer control-set number. -/
def pyFormat03 (n : Nat) : String :=
  zeroPad 3 (decRepr n)

/-- Control-set resolution shared by `storage_parser.run` (lines 34-35)
and `bam_parser.run` (lines 30-31): `get_value` defaults a missing
`Current` value to the string "Not Found", the explicit guard raises
`ValueError` only on the exact string "N/A", and the later format spec
`03d` raises (`ValueError` for a string payload, `TypeError` otherwise)
on every non-integer payload — including the "Not Found" default.  Every
raise lands in the module-level handler that returns False, so
`Except.error` models operation failure. -/
def resolve_cs_strict (select : List (String × RegVal)) : Except Unit Nat :=
  let cs := get_value select "Current" (RegVal.vStr "Not Found")
  if cs = RegVal.vStr "N/A" then .error ()
  else
    match cs with
    | RegVal.vInt n => .ok n
    | _ => .error ()

/-- Slice of `storage_parser.run` (lines 30-74): the Boolean is the run
outcome as determined by control-set resolution (False exactly when
resolution raises), and the list collects the three system-scoped key
paths the run then builds from the resolved segment (lines 39, 59, 74). -/
def storage_run_slice (select : List (String × RegVal)) : Bool × List String :=
  match resolve_cs_strict select with
  | .error _ => (false, [])
  | .ok n =>
    (true,
      ["ControlSet" ++ pyFormat03 n ++ "\\Enum\\USB",
       "ControlSet" ++ pyFormat03 n ++ "\\Enum\\SCSI",
       "ControlSet" ++ pyFormat03 n ++ "\\Enum\\USBSTOR"])

/-- Slice of `bam_parser.run` (lines 27-33), analogous to
`storage_run_slice` with the single BAM key path (line 33). -/
def bam_run_slice (select : List (String × RegVal)) : Bool × List String :=
  match resolve_cs_strict select with
  | .error _ => (false, [])
  | .ok n => (true, ["ControlSet" ++ pyFormat03 n ++ "\\Services\\bam\\State\\UserSettings"])

/-- Control-set resolution of `os_info_parser.run` (lines 72-74):
`get_value` defaults a missing `Current` value to the integer 0, and the
guard `current_control_set_num > 0` then skips the whole system-scoped
block without failing (`Except.ok none`); comparing a non-integer payload
with 0 raises `TypeError`, reaching the handler that returns False
(`Except.error`). -/
def os_info_cs_slice (select : List (String × RegVal)) : Except Unit (Option Nat) :=
  match get_value select "Current" (RegVal.vInt 0) with
  | RegVal.vInt n => if 0 < n then .ok (some n) else .ok none
  | _ => .error ()

/-- Slice of `os_info_parser.run` (lines 28-133) for an image whose
SOFTWARE hive is absent (so the lines 43-67 block is skipped) and whose
SYSTEM hive opens with the given `Select` values; the system-scoped key
paths of lines 77 and 81 are built only when the resolved number is
positive, and every key the slice would subsequently open is assumed
present.  The Boolean is the run return value: False only when an
exception reaches the handler at line 130. -/
def os_info_run_slice (select : List (String × RegVal)) : Bool × List String :=
  match os_info_cs_slice select with
  | .error _ => (false, [])
  | .ok none => (true, [])
  | .ok (some n) =>
    (true,
      ["ControlSet" ++ pyFormat03 n ++ "\\Control\\ComputerName\\ComputerName",
       "ControlSet" ++ pyFormat03 n ++ "\\Control\\TimeZoneInformation"])

example : storage_run_slice [] = (false, []) := by decide
example : os_info_run_slice [] = (true, []) := by decide
example : os_info_run_slice [("Current", RegVal.vStr "x")] = (false, []) := by decide
example :
    bam_run_slice [("Current", RegVal.vInt 1)] =
      (true, ["ControlSet001\\Services\\bam\\State\\UserSettings"]) := by decide

/-! ## SYSTEMTIME decoding and the network-profile correlator
(utils.py, parsers/network_info_parser.py) -/

/-- Number of days of one month in one year, as validated by the Python
datetime constructor. -/
def daysInMonth (y m : Nat) : Nat :=
  ((monthLengths (isLeapYear y)).get? (m - 1)).getD 0

/-- Embedding of `utils.parse_systemtime_from_binary` (utils.py, lines
175-194).  Non-bytes input and byte strings shorter than 16 give "N/A";
`struct.unpack` demands exactly 16 bytes, so a longer byte string raises
`struct.error`, caught as "[Parsing Error]"; a zero year gives "N/A";
components rejected by the datetime constructor raise `ValueError`, also
caught as "[Parsing Error]". -/
def parse_systemtime_from_binary (v : RegVal) : String :=
  match v with
  | RegVal.vBytes data =>
    if data.length < 16 then "N/A"
    else if data.length ≠ 16 then "[Parsing Error]"
    else
      let w := fun i => ((unpackLE data (2 * i) 2).getD 0)
      let year := w 0
      let month := w 1
      let day := w 3
      let hour := w 4
      let minute := w 5
      let second := w 6
      if year = 0 then "N/A"
      else if 1 ≤ year ∧ year ≤ 9999 ∧ 1 ≤ month ∧ month ≤ 12 ∧
          1 ≤ day ∧ day ≤ daysInMonth year month ∧ hour ≤ 23 ∧ minute ≤ 59 ∧ second ≤ 59 then
        strftimeYmdHms year month day hour minute second
      else "[Parsing Error]"
  | _ => "N/A"

example :
    parse_systemtime_from_binary
      (RegVal.vBytes [231, 7, 1, 0, 0, 0, 15, 0, 10, 0, 30, 0, 0, 0, 0, 0]) =
      "2023-01-15 10:30:00" := by decide

/-- A key as the network correlator reads it: name plus value list. -/
structure RegKeySlim where
  name : String
  values : List (String × RegVal)
  deriving DecidableEq, Repr

/-- The metadata stored per profile by `network_info_parser.run`, lines
185-191. -/
structure ProfileInfo where
  profName : RegVal
  created : String
  last_connected : String
  deriving DecidableEq, Repr

/-- Python dict assignment `m[k] = v`: replaces in place when the key is
present, appends otherwise (insertion order preserved). -/
def dictInsert {α : Type} (m : List (String × α)) (k : String) (v : α) : List (String × α) :=
  if (m.lookup k).isSome then m.map (fun p => if p.1 = k then (k, v) else p)
  else m ++ [(k, v)]

/-- The profile map built first by `network_info_parser.run` (lines
182-192): one entry per subkey of the Profiles key, keyed by the subkey
name. -/
def build_profiles_map (profileKeys : List RegKeySlim) : List (String × ProfileInfo) :=
  profileKeys.foldl
    (fun m pk =>
      dictInsert m pk.name
        { profName := get_value pk.values "ProfileName" (RegVal.vStr "Not Found")
          created :=
            parse_systemtime_from_binary
              (get_value pk.values "DateCreated" (RegVal.vStr "Not Found"))
          last_connected :=
            parse_systemtime_from_binary
              (get_value pk.values "DateLastConnected" (RegVal.vStr "Not Found")) })
    []

/-- Non-bytes payloads fail the isinstance guard of
`format_mac_address`, giving "N/A". -/
def format_mac_val (v : RegVal) : String :=
  match v with
  | RegVal.vBytes b => format_mac_address b
  | _ => "N/A"

/-- One row of the network-history table (lines 216-222 of
network_info_parser.py). -/
structure NetworkHistoryRow where
  profName : RegVal
  created : String
  last_connected : String
  gateway_mac : String
  profileGuid : String
  deriving DecidableEq, Repr

/-- The `ProfileGuid` payload read from one signature subkey
(network_info_parser.py, line 206). -/
def sigGuid (sig : RegKeySlim) : RegVal :=
  get_value sig.values "ProfileGuid" (RegVal.vStr "Not Found")

/-- Join of one signature subkey against the profile map
(network_info_parser.py, lines 206-222): a row is emitted exactly when
the signature's `ProfileGuid` value is a key of the map (a non-string
payload never equals a string dict key). -/
def sig_join (profiles : List (String × ProfileInfo)) (sig : RegKeySlim) :
    Option NetworkHistoryRow :=
  match sigGuid sig with
  | RegVal.vStr g =>
    match profiles.lookup g with
    | some p =>
      some
        { profName := p.profName
          created := p.created
          last_connected := p.last_connected
          gateway_mac :=
            format_mac_val (get_value sig.values "DefaultGatewayMac" (RegVal.vStr "Not Found"))
          profileGuid := g }
    | none => none
  | _ => none

/-- The signature scan of `network_info_parser.run` (lines 201-222): the
Unmanaged namespace first, then Managed (`none` models a namespace key
that is absent, skipped by the `continue`); each signature subkey whose
referenced profile is in the map contributes exactly one row, in scan
order. -/
def network_history_rows (profiles : List (String × ProfileInfo))
    (unmanaged managed : Option (List RegKeySlim)) : List NetworkHistoryRow :=
  (match unmanaged with
   | none => []
   | some sigs => sigs.filterMap (sig_join profiles)) ++
  (match managed with
   | none => []
   | some sigs => sigs.filterMap (sig_join profiles))

/-! ## User-profile path resolution (utils.get_user_profiles) -/

/-- Python `s.endswith(p)`. -/
def pyEndsWith (s p : String) : Bool :=
  p.data.isSuffixOf s.data

/-- Two-argument `posixpath.join`. -/
def posixJoin2 (a b : String) : String :=
  if pyStartsWith b "/" then b
  else if a = "" || pyEndsWith a "/" then a ++ b
  else a ++ "/" ++ b

/-- Embedding of `posixpath.normpath`: collapse separators and `.`
components, resolve `..` where possible, preserve the special two-slash
root. -/
def posixNormpath (path : String) : String :=
  if path = "" then "."
  else
    let initialSlashes : Nat :=
      if pyStartsWith path "/" then
        if pyStartsWith path "//" ∧ ¬ pyStartsWith path "///" then 2 else 1
      else 0
    let comps := pySplitChar path '/'
    let newComps :=
      comps.foldl
        (fun (acc : List String) comp =>
          if comp = "" ∨ comp = "." then acc
          else if comp ≠ ".." ∨ (initialSlashes = 0 ∧ acc = []) ∨ acc.getLast? = some ".." then
            acc ++ [comp]
          else if acc ≠ [] then acc.dropLast
          else acc)
        []
    let res : String := ⟨List.replicate initialSlashes '/'⟩ ++ String.intercalate "/" newComps
    if res = "" then "." else res

example : posixNormpath "/mnt/img/Windows/Users/Alice" = "/mnt/img/Windows/Users/Alice" := by
  decide
example : posixNormpath "a//b/./c/.." = "a/b" := by decide

/-- Embedding of `posixpath.basename`: everything after the last
separator. -/
def posixBasename (p : String) : String :=
  (pySplitChar p '/').getLastD ""

/-- The substitution `re.sub(r'^[a-zA-Z]:/', '', s)` of utils.py line
159: a single leading ASCII drive-letter prefix is removed. -/
def stripDrive (s : String) : String :=
  match s.data with
  | c :: ':' :: '/' :: rest => if c.isAlpha then ⟨rest⟩ else s
  | _ => s

/-- The path-normalization pipeline applied to one raw `ProfileImagePath`
payload by `utils.get_user_profiles` (utils.py, lines 152-170), run on a
POSIX host: backslashes to forward slashes, both spellings of the
system-root token substituted, drive letter stripped, separators
stripped from both ends, re-rooted under the image root, normalized; the
username is the final path component. -/
def resolve_profile_path (image_root profile_path_raw : String) : String × String :=
  let clean1 := pyReplace profile_path_raw "\\" "/"
  let clean2 := pyReplace clean1 "%SystemRoot%" "Windows"
  let clean3 := pyReplace clean2 "%systemroot%" "Windows"
  let path_no_drive := stripDrive clean3
  let relative_path := pyStripSlash path_no_drive
  let final := posixNormpath (posixJoin2 image_root relative_path)
  (final, posixBasename final)

example :
    resolve_profile_path "/mnt/img" "%SystemRoot%\\Users\\Alice" =
      ("/mnt/img/Windows/Users/Alice", "Alice") := by decide
example :
    resolve_profile_path "/mnt/img" "C:\\Users\\Bob" = ("/mnt/img/Users/Bob", "Bob") := by decide

/-! ## Shell-item path decoding (utils.parse_shell_item_path) -/

/-- Fuel-driven embedding of the while loop of
`utils.parse_shell_item_path` (utils.py, lines 103-123).  `none` is fuel
exhaustion (never reached from sufficient fuel, see
`shellLoopAux_isSome`); `some (Except.error ())` models an exception
inside the loop (`struct.error` from a chunk-size read past the buffer,
or `IndexError` from reading the type byte of a chunk shorter than three
bytes), caught at line 123 as "[Parsing Error]"; `some (Except.ok
parts)` is normal termination with the collected segments. -/
def shellLoopAux (data : List Nat) : Nat → Nat → List String → Option (Except Unit (List String))
  | 0, _, _ => none
  | f + 1, offset, acc =>
    if offset < data.length then
      match unpackLE data offset 2 with
      | none => some (.error ())
      | some item_size =>
        if item_size = 0 then some (.ok acc)
        else
          let item_data := pySlice data offset (offset + item_size)
          match item_data.get? 2 with
          | none => some (.error ())
          | some item_type =>
            let seg : Option String :=
              if item_type = 0x31 ∨ item_type = 0x32 ∨ item_type = 0xb1 then
                some ⟨(decodeUtf16le false (takeToDoubleNull item_data)).takeWhile
                  (· ≠ Char.ofNat 0)⟩
              else if item_type = 0x2f then
                some ⟨decodeAsciiIgnore ((item_data.drop 3).takeWhile (· ≠ 0))⟩
              else none
            let acc2 :=
              match seg with
              | some s => if s ≠ "" then acc ++ [s] else acc
              | none => acc
            shellLoopAux data f (offset + item_size) acc2
    else some (.ok acc)

/-- Embedding of `utils.parse_shell_item_path` (utils.py, lines
103-123) on a byte-string argument: inputs shorter than four bytes give
"[Invalid Data]"; otherwise the loop's segments are joined with
backslashes, and an exception caught by the handler gives
"[Parsing Error]".  The fuel `data.length + 1` always suffices (see
`shellLoopAux_isSome`), so the `none` arm is unreachable. -/
def parse_shell_item_path (data : List Nat) : String :=
  if data.length < 4 then "[Invalid Data]"
  else
    match shellLoopAux data (data.length + 1) 0 [] with
    | some (.ok parts) => String.intercalate "\\" parts
    | some (.error _) => "[Parsing Error]"
    | none => "[Parsing Error]"

example :
    parse_shell_item_path [0x10, 0x00, 0x2f, 0x41, 0x42, 0x00, 0x00, 0x00] = "AB" := by decide
example :
    parse_shell_item_path [0x07, 0x00, 0x2f, 0x43, 0x00, 0x00, 0x00, 0x02, 0x00] =
      "[Parsing Error]" := by decide

/-- A 206-byte V blob whose offset word (at location 12) points at byte
204 and whose length word (at location 16) declares eight bytes — two
bytes more than the blob holds. -/
def c6_blob : List Nat :=
  List.replicate 12 0 ++ [0, 0, 0, 0] ++ [8, 0, 0, 0] ++ List.replicate 184 0 ++ [65, 0]

/-- Structural well-formedness of a shell-item byte buffer from a given
offset: the decoding loop reaches a clean stop — immediately at the
buffer end or at a zero-size chunk, or through a chunk that declares at
least three bytes and fits entirely inside the remaining buffer. -/
inductive ShellWF (data : List Nat) : Nat → Prop where
  | done (offset : Nat) (h : data.length ≤ offset) : ShellWF data offset
  | zero (offset : Nat) (h : offset < data.length)
      (hsz : unpackLE data offset 2 = some 0) : ShellWF data offset
  | step (offset size : Nat) (h : offset < data.length)
      (hsz : unpackLE data offset 2 = some size) (h3 : 3 ≤ size)
      (hfit : offset + size ≤ data.length) (next : ShellWF data (offset + size)) :
      ShellWF data offset

/-! ## Shared lemmas -/

/-- Sufficient fuel never runs out in the shell-item loop: every
iteration either finishes or advances the offset by the strictly
positive declared chunk size, so any fuel exceeding the remaining byte
count completes. -/
theorem shellLoopAux_isSome (data : List Nat) :
    ∀ (f offset : Nat) (acc : List String), data.length - offset < f →
      (shellLoopAux data f offset acc).isSome = true := by
  intro f
  induction f with
  | zero => intro offset acc h; omega
  | succ f ih =>
    intro offset acc h
    unfold shellLoopAux
    by_cases hlt : offset < data.length
    · simp only [hlt, if_true]
      cases hu : unpackLE data offset 2 with
      | none => simp
      | some item_size =>
        by_cases hz : item_size = 0
        · simp [hz]
        · simp only [hz, if_false]
          cases hg : (pySlice data offset (offset + item_size)).get? 2 with
          | none => simp
          | some ty =>
            simp only
            apply ih
            omega
    · simp [hlt]

/-- A string literally extended on the right starts with the original
string. -/
theorem pyStartsWith_append (a b : String) : pyStartsWith (a ++ b) a = true := by
  simp only [pyStartsWith, String.data_append]
  exact List.isPrefixOf_iff_prefix.mpr (List.prefix_append a.data b.data)

/-- Associativity of string concatenation. -/
theorem stringAppend_assoc (a b c : String) : a ++ b ++ c = a ++ (b ++ c) := by
  cases a with | mk la =>
  cases b with | mk lb =>
  cases c with | mk lc =>
  show String.mk (la ++ lb ++ lc) = String.mk (la ++ (lb ++ lc))
  rw [List.append_assoc]

set_option maxRecDepth 4000 in
/-- For control-set numbers in the documented range the formatted
segment is a three-character decimal digit string other than "000". -/
theorem pyFormat03_valid :
    ∀ n < 1000, 1 ≤ n →
      (pyFormat03 n).length = 3 ∧ (∀ c ∈ (pyFormat03 n).data, c.isDigit = true) ∧
        pyFormat03 n ≠ "000" := by
  decide

/-- First-match semantics of `List.find?` over a decomposed list. -/
theorem find?_append_first {α : Type} (p : α → Bool) :
    ∀ (pre : List α) (post : List α) (a : α), (∀ x ∈ pre, p x = false) → p a = true →
      (pre ++ a :: post).find? p = some a := by
  intro pre
  induction pre with
  | nil => intro post a _ ha; simp [List.find?_cons, ha]
  | cons x xs ih =>
    intro post a hpre ha
    have hx : p x = false := hpre x (List.mem_cons_self x xs)
    simp only [List.cons_append, List.find?_cons, hx]
    exact ih post a (fun y hy => hpre y (List.mem_cons_of_mem x hy)) ha

/-- Counting lemma: `filterMap` keeps exactly the elements on which the
function is some. -/
theorem length_filterMap_eq {α β : Type} (f : α → Option β) :
    ∀ l : List α, (l.filterMap f).length = (l.filter fun a => (f a).isSome).length := by
  intro l
  induction l with
  | nil => rfl
  | cons a t ih =>
    cases hf : f a <;> simp [List.filterMap_cons, List.filter_cons, hf, ih]

/-! ## Claim C4 -/

/-- Claim C4: decoding the sentinel FILETIME inputs 0 and
0x7FFFFFFFFFFFFFFF yields the absent marker, and an out-of-range count
yields absent without raising.  This holds for `filetime_to_datetime`
(first conjunct: `none` exactly on the sentinels and out-of-range
counts), but the sibling decoder `format_filetime` treats only 0 as a
sentinel and lets an uncaught `OverflowError` escape for every
out-of-range count — including the "never" sentinel itself (remaining
conjuncts), aborting the calling report. -/
theorem c4_filetime_decode_eval :
    (∀ ft : Nat, filetime_to_datetime ft = none ↔
        ft = 0 ∨ ft = 0x7FFFFFFFFFFFFFFF ∨ datetimeRangeMicros1601 ≤ ft / 10) ∧
    format_filetime 0 = .ok "N/A" ∧
    (∀ ft : Nat, format_filetime ft = .error PyExc.overflowError ↔
        ft ≠ 0 ∧ datetimeRangeMicros1601 ≤ ft / 10) ∧
    format_filetime 0x7FFFFFFFFFFFFFFF = .error PyExc.overflowError := by
  refine ⟨?_, by decide, ?_, by decide⟩
  · intro ft
    by_cases h1 : ft = 0 ∨ ft = 0x7FFFFFFFFFFFFFFF
    · rw [filetime_to_datetime, if_pos h1]
      exact iff_of_true rfl (h1.elim Or.inl (fun h => Or.inr (Or.inl h)))
    · rw [filetime_to_datetime, if_neg h1]
      push_neg at h1
      by_cases h2 : ft / 10 < datetimeRangeMicros1601
      · rw [if_pos h2]
        constructor
        · intro hc; cases hc
        · intro hc
          rcases hc with hc | hc | hc
          · exact absurd hc h1.1
          · exact absurd hc h1.2
          · omega
      · rw [if_neg h2]
        exact iff_of_true rfl (Or.inr (Or.inr (by omega)))
  · intro ft
    by_cases h1 : ft = 0
    · rw [format_filetime, if_pos h1]
      constructor
      · intro hc; cases hc
      · intro hc; exact absurd h1 hc.1
    · rw [format_filetime, if_neg h1]
      by_cases h2 : ft / 10 < datetimeRangeMicros1601
      · rw [if_pos h2]
        constructor
        · intro hc; cases hc
        · intro hc; omega
      · rw [if_neg h2]
        exact iff_of_true rfl ⟨h1, by omega⟩

/-! ## Claim C8 -/

/-- Claim C8 counterexample: a seven-byte input is not mapped to the
"N/A" marker, contradicting "an input of any other length formats as
N/A" — the guard only rejects inputs shorter than six bytes and formats
all bytes of longer inputs. -/
theorem c8_counterexample :
    format_mac_address [0, 0, 0, 0, 0, 0, 0] = "00:00:00:00:00:00:00" ∧
    format_mac_address [0, 0, 0, 0, 0, 0, 0] ≠ "N/A" := by
  decide

/-- Claim C8 (amended): inputs of fewer than six bytes format as "N/A";
inputs of six or more bytes format as colon-separated uppercase
hexadecimal octets of all their bytes; in particular the six-byte
example formats as "00:1A:2B:3C:4D:5E". -/
theorem c8_mac_amended :
    (∀ b : List Nat, b.length < 6 → format_mac_address b = "N/A") ∧
    (∀ b : List Nat, 6 ≤ b.length →
      format_mac_address b = String.intercalate ":" (b.map pyHex02)) ∧
    format_mac_address [0x00, 0x1A, 0x2B, 0x3C, 0x4D, 0x5E] = "00:1A:2B:3C:4D:5E" := by
  refine ⟨?_, ?_, by decide⟩
  · intro b h
    rw [format_mac_address, if_pos h]
  · intro b h
    rw [format_mac_address, if_neg (by omega)]

/-- Claim C8 witness: the amended theorem applied at a five-byte and a
seven-byte input. -/
theorem c8_mac_amended_witness :
    format_mac_address [1, 2, 3, 4, 5] = "N/A" ∧
    format_mac_address [1, 2, 3, 4, 5, 6, 7] =
      String.intercalate ":" ([1, 2, 3, 4, 5, 6, 7].map pyHex02) :=
  ⟨c8_mac_amended.1 [1, 2, 3, 4, 5] (by decide),
   c8_mac_amended.2.1 [1, 2, 3, 4, 5, 6, 7] (by decide)⟩

/-! ## Claim C10 -/

/-- Claim C10: the shell-item decoding loop terminates on every input
byte sequence — with fuel one more than the buffer length it always
completes (each iteration stops at a zero-size chunk or the buffer end,
or advances the offset by the strictly positive declared size), so
`parse_shell_item_path` is a total function on byte strings. -/
theorem c10_shell_loop_total :
    ∀ data : List Nat, ∃ r : Except Unit (List String),
      shellLoopAux data (data.length + 1) 0 [] = some r := by
  intro data
  have h := shellLoopAux_isSome data (data.length + 1) 0 [] (by omega)
  cases hs : shellLoopAux data (data.length + 1) 0 [] with
  | none => rw [hs] at h; cases h
  | some r => exact ⟨r, rfl⟩

/-! ## Claim C2 -/

/-- Claim C2 counterexample: with an empty index (no key matches), the
produced record's lastConnected field does not remain at the "N/A"
default — it is replaced by the storage entry's first-installed
timestamp (storage_parser.py, lines 100-101). -/
theorem c2_counterexample :
    (usb_correlate [] "AB&X" "2024-02-02 03:04:05").lastConnected = "2024-02-02 03:04:05" ∧
    (usb_correlate [] "AB&X" "2024-02-02 03:04:05").lastConnected ≠ "N/A" := by
  decide

/-- Claim C2 (amended): the short serial is the key name up to the first
ampersand and the first index key (in index-iteration order) starting
with it wins the merge of vendor, product, timestamp and hardware-id
fields; when no index key matches, vendorId, productId and hardwareIds
remain "N/A", the record is still produced, and lastConnected falls back
to the entry's first-installed timestamp (as it also does when a merged
index timestamp is "N/A"); the worked "0781" example joins as stated. -/
theorem c2_usb_correlation_amended :
    (∀ (map : List (String × UsbInfo)) (full fi : String),
        (∀ p ∈ map, pyStartsWith p.1 ((pySplitChar full '&').headD "") = false) →
        usb_correlate map full fi =
          { serialFull := full
            serialShort := (pySplitChar full '&').headD ""
            vid := "N/A"
            pid := "N/A"
            lastConnected := fi
            hardwareId := "N/A"
            firstInstalled := fi }) ∧
    (∀ (pre post : List (String × UsbInfo)) (k : String) (d : UsbInfo) (full fi : String),
        (∀ p ∈ pre, pyStartsWith p.1 ((pySplitChar full '&').headD "") = false) →
        pyStartsWith k ((pySplitChar full '&').headD "") = true →
        usb_correlate (pre ++ (k, d) :: post) full fi =
          { serialFull := full
            serialShort := (pySplitChar full '&').headD ""
            vid := d.vid
            pid := d.pid
            lastConnected := if d.last_connected = "N/A" then fi else d.last_connected
            hardwareId := d.hardware_id
            firstInstalled := fi }) ∧
    (usb_correlate
        [("5&1a2b3c4d&0", ⟨"0781", "5567", "2024-01-01 00:00:00", "USB\\VID_0781&PID_5567"⟩)]
        "5&1a2b3c4d&0&5C0000000000" "2024-02-02 00:00:00").vid = "0781" := by
  refine ⟨?_, ?_, by decide⟩
  · intro map full fi h
    have hf : map.find? (fun p => pyStartsWith p.1 ((pySplitChar full '&').headD "")) = none :=
      List.find?_eq_none.mpr (fun p hp => by
        show ¬ (pyStartsWith p.1 ((pySplitChar full '&').headD "") = true)
        rw [h p hp]
        exact Bool.false_ne_true)
    simp only [usb_correlate]
    rw [hf]
    simp
  · intro pre post k d full fi hpre hk
    have hf :
        (pre ++ (k, d) :: post).find?
            (fun p => pyStartsWith p.1 ((pySplitChar full '&').headD "")) = some (k, d) :=
      find?_append_first _ pre post (k, d) (fun x hx => hpre x hx) hk
    simp only [usb_correlate]
    rw [hf]

/-- Claim C2 witness: the amended theorem applied to a concrete index in
which a non-matching entry precedes the matching one, and to a concrete
no-match configuration. -/
theorem c2_usb_correlation_amended_witness :
    (∀ p ∈ [("9&ZZ", UsbInfo.mk "AAAA" "BBBB" "N/A" "hw")],
        pyStartsWith p.1 ((pySplitChar "5&1a2b&0&SER" '&').headD "") = false) ∧
    pyStartsWith "5&1a2b" ((pySplitChar "5&1a2b&0&SER" '&').headD "") = true ∧
    usb_correlate
        [("9&ZZ", UsbInfo.mk "AAAA" "BBBB" "N/A" "hw"),
         ("5&1a2b", UsbInfo.mk "0781" "5567" "N/A" "hw2")]
        "5&1a2b&0&SER" "2024-03-03 00:00:00" =
      { serialFull := "5&1a2b&0&SER"
        serialShort := "5"
        vid := "0781"
        pid := "5567"
        lastConnected := "2024-03-03 00:00:00"
        hardwareId := "hw2"
        firstInstalled := "2024-03-03 00:00:00" } ∧
    usb_correlate [] "X&Y" "2024-04-04 00:00:00" =
      { serialFull := "X&Y"
        serialShort := "X"
        vid := "N/A"
        pid := "N/A"
        lastConnected := "2024-04-04 00:00:00"
        hardwareId := "N/A"
        firstInstalled := "2024-04-04 00:00:00" } := by
  refine ⟨by decide, by decide, ?_, ?_⟩
  · have h :=
      c2_usb_correlation_amended.2.1
        [("9&ZZ", UsbInfo.mk "AAAA" "BBBB" "N/A" "hw")] []
        "5&1a2b" (UsbInfo.mk "0781" "5567" "N/A" "hw2")
        "5&1a2b&0&SER" "2024-03-03 00:00:00" (by decide) (by decide)
    exact h.trans (by decide)
  · exact
      (c2_usb_correlation_amended.1 [] "X&Y" "2024-04-04 00:00:00" (by decide)).trans (by decide)

/-! ## Claim C5 -/

/-- Claim C5 counterexample: an enumeration containing one account with
a two-byte F blob followed by one fully decodable account aborts as a
whole (`Except.error`, reaching the handler that returns False), while
the second account alone would have enumerated fine — the malformed
record is not skipped and enumeration does not continue. -/
theorem c5_counterexample :
    sam_enumerate [] "SAM\\Domains\\Account\\Users"
      [⟨"000001F4", some [0, 0], some [], 0⟩,
       ⟨"000001F5", some (List.replicate 68 0), some [], 0⟩] = Except.error () ∧
    sam_enumerate [] "SAM\\Domains\\Account\\Users"
      [⟨"000001F5", some (List.replicate 68 0), some [], 0⟩] ≠ Except.error () := by
  decide

/-- Claim C5 (amended): a single account whose F blob is shorter than
the 68-byte minimum (or whose record otherwise fails to decode) raises
and aborts the whole account enumeration — the remaining accounts are
not reported (the loop at sam_parser.py lines 61-85 has no per-record
handler); a blob exactly at the minimum length decodes successfully,
with the 16-bit bad-password counter at offset 64 and the 16-bit login
counter at offset 66. -/
theorem c5_sam_f_blob_amended :
    (∀ (lookup : List (Nat × String × String)) (path : String)
        (pre post : List UserKeyEntry) (e : UserKeyEntry),
        e.keyName ≠ "Names" → decode_sam_user lookup path e = .error () →
        sam_enumerate lookup path (pre ++ e :: post) = .error ()) ∧
    (∀ (lookup : List (Nat × String × String)) (path : String) (e : UserKeyEntry)
        (f v : List Nat) (r : Nat),
        int16Parse e.keyName = some r → e.fData = some f → e.vData = some v →
        f.length = 68 →
        ∃ acc, decode_sam_user lookup path e = .ok acc ∧
          some acc.badPasswordCount = unpackLE f 64 2 ∧
          some acc.loginCount = unpackLE f 66 2) ∧
    (∀ (lookup : List (Nat × String × String)) (path : String) (e : UserKeyEntry)
        (f : List Nat),
        e.fData = some f → f.length < 68 → decode_sam_user lookup path e = .error ()) := by
  refine ⟨?_, ?_, ?_⟩
  · intro lookup path pre post e hne hdec
    induction pre with
    | nil =>
      simp only [List.nil_append, sam_enumerate, if_neg hne, hdec]
    | cons x xs ih =>
      by_cases hx : x.keyName = "Names"
      · simp only [List.cons_append, sam_enumerate, if_pos hx, List.append_eq, ih]
      · simp only [List.cons_append, sam_enumerate, if_neg hx, List.append_eq]
        cases hdx : decode_sam_user lookup path x with
        | error err => rfl
        | ok acc => rw [ih]
  · intro lookup path e f v r hr hf hv hlen
    obtain ⟨x8, h8⟩ : ∃ x, unpackLE f 8 8 = some x :=
      ⟨_, by unfold unpackLE; rw [if_pos (by omega)]⟩
    obtain ⟨x24, h24⟩ : ∃ x, unpackLE f 24 8 = some x :=
      ⟨_, by unfold unpackLE; rw [if_pos (by omega)]⟩
    obtain ⟨x32, h32⟩ : ∃ x, unpackLE f 32 8 = some x :=
      ⟨_, by unfold unpackLE; rw [if_pos (by omega)]⟩
    obtain ⟨x40, h40⟩ : ∃ x, unpackLE f 40 8 = some x :=
      ⟨_, by unfold unpackLE; rw [if_pos (by omega)]⟩
    obtain ⟨x66, h66⟩ : ∃ x, unpackLE f 66 2 = some x :=
      ⟨_, by unfold unpackLE; rw [if_pos (by omega)]⟩
    obtain ⟨x64, h64⟩ : ∃ x, unpackLE f 64 2 = some x :=
      ⟨_, by unfold unpackLE; rw [if_pos (by omega)]⟩
    obtain ⟨x48, h48⟩ : ∃ x, unpackLE f 48 4 = some x :=
      ⟨_, by unfold unpackLE; rw [if_pos (by omega)]⟩
    simp only [decode_sam_user, hr, hf, hv, h8, h24, h32, h40, h66, h64, h48]
    exact ⟨_, rfl, rfl, rfl⟩
  · intro lookup path e f hf hlen
    have h66 : unpackLE f 66 2 = none := by
      unfold unpackLE; rw [if_neg (by omega)]
    simp only [decode_sam_user, hf]
    cases hr : int16Parse e.keyName with
    | none => rfl
    | some r =>
      cases hv : e.vData with
      | none => rfl
      | some v =>
        cases h8 : unpackLE f 8 8 with
        | none => rfl
        | some x8 =>
          cases h24 : unpackLE f 24 8 with
          | none => rfl
          | some x24 =>
            cases h32 : unpackLE f 32 8 with
            | none => rfl
            | some x32 =>
              cases h40 : unpackLE f 40 8 with
              | none => rfl
              | some x40 => rw [h66]

set_option maxRecDepth 10000 in
/-- Claim C5 witness: the amended theorem applied to a concrete
malformed entry inside a concrete enumeration and to a concrete 68-byte
blob whose two counters hold 3 (offset 64) and 7 (offset 66). -/
theorem c5_sam_f_blob_amended_witness :
    sam_enumerate [] "SAM\\Domains\\Account\\Users"
      [⟨"000001F5", some (List.replicate 68 0), some [], 0⟩,
       ⟨"000001F6", some [1], some [], 0⟩] = Except.error () ∧
    (∃ acc,
      decode_sam_user [] "SAM\\Domains\\Account\\Users"
          ⟨"01F4", some (List.replicate 64 0 ++ [3, 0, 7, 0]), some [], 5⟩ = .ok acc ∧
        some acc.badPasswordCount = unpackLE (List.replicate 64 0 ++ [3, 0, 7, 0]) 64 2 ∧
        some acc.loginCount = unpackLE (List.replicate 64 0 ++ [3, 0, 7, 0]) 66 2) := by
  constructor
  · exact
      c5_sam_f_blob_amended.1 [] "SAM\\Domains\\Account\\Users"
        [⟨"000001F5", some (List.replicate 68 0), some [], 0⟩] []
        ⟨"000001F6", some [1], some [], 0⟩ (by decide)
        (c5_sam_f_blob_amended.2.2 [] "SAM\\Domains\\Account\\Users"
          ⟨"000001F6", some [1], some [], 0⟩ [1] rfl (by decide))
  · exact
      c5_sam_f_blob_amended.2.1 [] "SAM\\Domains\\Account\\Users"
        ⟨"01F4", some (List.replicate 64 0 ++ [3, 0, 7, 0]), some [], 5⟩
        (List.replicate 64 0 ++ [3, 0, 7, 0]) [] 500 (by decide) rfl rfl (by decide)

/-! ## Claim C6 -/

set_option maxRecDepth 10000 in
/-- Claim C6 counterexample: a V-blob string read whose length overflows
the blob does not yield an absent string — Python slicing silently
truncates, so the read returns the decodable truncated portion (here the
non-empty string "A"). -/
theorem c6_counterexample :
    c6_blob.length = 206 ∧
    unpackLE c6_blob 12 4 = some 0 ∧
    unpackLE c6_blob 16 4 = some 8 ∧
    c6_blob.length < 0 + 0xCC + 8 ∧
    parse_v_string c6_blob 12 16 = some "A" := by
  decide

/-- Claim C6 (amended): a V blob too short to hold the fixed
offset/length words yields `none` for that field only; a computed string
offset at or past the end of the blob yields the empty string; a length
overflowing the blob yields the truncated decodable portion (see the
counterexample); in every case the failure is confined to that field —
the rest of the account record (login count, creation timestamp) is
still populated whenever the F blob decodes. -/
theorem c6_v_string_amended :
    (∀ (v : List Nat) (ol ll : Nat), v.length < ol + 4 ∨ v.length < ll + 4 →
        parse_v_string v ol ll = none) ∧
    (∀ (v : List Nat) (ol ll off len : Nat),
        unpackLE v ol 4 = some off → unpackLE v ll 4 = some len → 0 < len →
        v.length ≤ off + 0xCC → parse_v_string v ol ll = some "") ∧
    (∀ (lookup : List (Nat × String × String)) (path : String) (e : UserKeyEntry)
        (f v : List Nat) (r : Nat),
        int16Parse e.keyName = some r → e.fData = some f → e.vData = some v →
        68 ≤ f.length →
        ∃ acc, decode_sam_user lookup path e = .ok acc ∧
          acc.userName = parse_v_string v 12 16 ∧
          acc.fullName = parse_v_string v 24 28 ∧
          acc.userComment = parse_v_string v 36 40 ∧
          some acc.loginCount = unpackLE f 66 2 ∧
          acc.creationTime = e.timestampMicros) := by
  refine ⟨?_, ?_, ?_⟩
  · intro v ol ll h
    rcases h with h | h
    · have ho : unpackLE v ol 4 = none := by unfold unpackLE; rw [if_neg (by omega)]
      simp only [parse_v_string, ho]
    · cases hu : unpackLE v ol 4 with
      | none => simp only [parse_v_string, hu]
      | some off =>
        have hl : unpackLE v ll 4 = none := by unfold unpackLE; rw [if_neg (by omega)]
        simp only [parse_v_string, hu, hl]
  · intro v ol ll off len h1 h2 h3 hpast
    have hdrop : v.drop (off + 0xCC) = [] := List.drop_eq_nil_of_le (by omega)
    simp only [parse_v_string, h1, h2, if_pos h3, pySlice, hdrop, List.take_nil]
    decide
  · intro lookup path e f v r hr hf hv hlen
    obtain ⟨x8, h8⟩ : ∃ x, unpackLE f 8 8 = some x :=
      ⟨_, by unfold unpackLE; rw [if_pos (by omega)]⟩
    obtain ⟨x24, h24⟩ : ∃ x, unpackLE f 24 8 = some x :=
      ⟨_, by unfold unpackLE; rw [if_pos (by omega)]⟩
    obtain ⟨x32, h32⟩ : ∃ x, unpackLE f 32 8 = some x :=
      ⟨_, by unfold unpackLE; rw [if_pos (by omega)]⟩
    obtain ⟨x40, h40⟩ : ∃ x, unpackLE f 40 8 = some x :=
      ⟨_, by unfold unpackLE; rw [if_pos (by omega)]⟩
    obtain ⟨x66, h66⟩ : ∃ x, unpackLE f 66 2 = some x :=
      ⟨_, by unfold unpackLE; rw [if_pos (by omega)]⟩
    obtain ⟨x64, h64⟩ : ∃ x, unpackLE f 64 2 = some x :=
      ⟨_, by unfold unpackLE; rw [if_pos (by omega)]⟩
    obtain ⟨x48, h48⟩ : ∃ x, unpackLE f 48 4 = some x :=
      ⟨_, by unfold unpackLE; rw [if_pos (by omega)]⟩
    simp only [decode_sam_user, hr, hf, hv, h8, h24, h32, h40, h66, h64, h48]
    exact ⟨_, rfl, rfl, rfl, rfl, rfl, rfl⟩

set_option maxRecDepth 10000 in
/-- Claim C6 witness: the amended theorem applied at concrete blobs —
a four-byte blob is too short for the length word at location 16; a blob
whose computed offset is past its end gives the empty string; an account
entry carrying the C6 counterexample V blob still decodes with its login
counter populated. -/
theorem c6_v_string_amended_witness :
    parse_v_string [1, 2, 3, 4] 0 16 = none ∧
    parse_v_string ([0, 0, 0, 0] ++ [4, 0, 0, 0] ++ List.replicate 196 0) 0 4 = some "" ∧
    (∃ acc,
      decode_sam_user [] "SAM\\Domains\\Account\\Users"
          ⟨"01F4", some (List.replicate 68 0), some c6_blob, 9⟩ = .ok acc ∧
        acc.userName = parse_v_string c6_blob 12 16 ∧
        acc.fullName = parse_v_string c6_blob 24 28 ∧
        acc.userComment = parse_v_string c6_blob 36 40 ∧
        some acc.loginCount = unpackLE (List.replicate 68 0) 66 2 ∧
        acc.creationTime = 9) := by
  refine ⟨?_, ?_, ?_⟩
  · exact c6_v_string_amended.1 [1, 2, 3, 4] 0 16 (by decide)
  · exact
      c6_v_string_amended.2.1 ([0, 0, 0, 0] ++ [4, 0, 0, 0] ++ List.replicate 196 0) 0 4 0 4
        (by decide) (by decide) (by decide) (by decide)
  · exact
      c6_v_string_amended.2.2 [] "SAM\\Domains\\Account\\Users"
        ⟨"01F4", some (List.replicate 68 0), some c6_blob, 9⟩
        (List.replicate 68 0) c6_blob 500 (by decide) rfl rfl (by decide)

/-! ## Claim C1 -/

/-- Claim C1 counterexample: in the OS-info report an absent `Current`
value of the `Select` key does not fail the whole operation — the value
defaults to the integer 0, the guard `> 0` soft-skips the system-scoped
section, and the run still returns True (the storage report, in
contrast, does fail on the same store). -/
theorem c1_counterexample :
    os_info_run_slice [] = (true, []) ∧ (os_info_run_slice []).1 ≠ false ∧
    storage_run_slice [] = (false, []) := by
  decide

/-- Claim C1 (amended): the storage and BAM reports fail as a whole
(False outcome) whenever the `Current` value of `Select` is absent or
non-numeric; the OS-info report fails as a whole only on a non-numeric
value, while an absent value (defaulted to 0) soft-skips its
system-scoped section and the report still succeeds; on success with a
stored control-set number between 1 and 999, every system-scoped key
path of all three reports starts with the zero-padded three-digit
segment ControlSetNNN with NNN in the range "001"-"999". -/
theorem c1_control_set_amended :
    (∀ select : List (String × RegVal),
        (∀ n : Nat, select.lookup "Current" ≠ some (RegVal.vInt n)) →
        storage_run_slice select = (false, []) ∧ bam_run_slice select = (false, [])) ∧
    (∀ select : List (String × RegVal), select.lookup "Current" = none →
        os_info_run_slice select = (true, [])) ∧
    (∀ (select : List (String × RegVal)) (v : RegVal),
        select.lookup "Current" = some v → (∀ n : Nat, v ≠ RegVal.vInt n) →
        os_info_run_slice select = (false, [])) ∧
    (∀ (select : List (String × RegVal)) (n : Nat),
        select.lookup "Current" = some (RegVal.vInt n) → 1 ≤ n → n ≤ 999 →
        (storage_run_slice select).1 = true ∧ (bam_run_slice select).1 = true ∧
        (os_info_run_slice select).1 = true ∧
        (∀ p ∈ (storage_run_slice select).2 ++ (bam_run_slice select).2 ++
            (os_info_run_slice select).2,
          pyStartsWith p ("ControlSet" ++ pyFormat03 n) = true) ∧
        (pyFormat03 n).length = 3 ∧ (∀ c ∈ (pyFormat03 n).data, c.isDigit = true) ∧
        pyFormat03 n ≠ "000") := by
  have hres : ∀ select : List (String × RegVal),
      (∀ n : Nat, select.lookup "Current" ≠ some (RegVal.vInt n)) →
      resolve_cs_strict select = .error () := by
    intro select h
    unfold resolve_cs_strict get_value
    cases hl : select.lookup "Current" with
    | none => decide
    | some v =>
      cases v with
      | vStr s =>
        simp only [Option.getD]
        by_cases hna : RegVal.vStr s = RegVal.vStr "N/A"
        · rw [if_pos hna]
        · rw [if_neg hna]
      | vInt n => exact absurd hl (h n)
      | vBytes b =>
        simp only [Option.getD]
        rw [if_neg (by intro hc; cases hc)]
      | vStrList l =>
        simp only [Option.getD]
        rw [if_neg (by intro hc; cases hc)]
  have hresOk : ∀ (select : List (String × RegVal)) (n : Nat),
      select.lookup "Current" = some (RegVal.vInt n) →
      resolve_cs_strict select = .ok n := by
    intro select n hl
    unfold resolve_cs_strict get_value
    rw [hl]
    simp only [Option.getD]
    rw [if_neg (by intro hc; cases hc)]
  refine ⟨?_, ?_, ?_, ?_⟩
  · intro select h
    constructor
    · unfold storage_run_slice
      rw [hres select h]
    · unfold bam_run_slice
      rw [hres select h]
  · intro select hl
    unfold os_info_run_slice os_info_cs_slice get_value
    rw [hl]
    decide
  · intro select v hl hv
    unfold os_info_run_slice os_info_cs_slice get_value
    rw [hl]
    cases v with
    | vStr s => rfl
    | vInt n => exact absurd rfl (hv n)
    | vBytes b => rfl
    | vStrList l => rfl
  · intro select n hl h1 h999
    have hdig := pyFormat03_valid n (by omega) h1
    have hs : storage_run_slice select =
        (true,
          ["ControlSet" ++ pyFormat03 n ++ "\\Enum\\USB",
           "ControlSet" ++ pyFormat03 n ++ "\\Enum\\SCSI",
           "ControlSet" ++ pyFormat03 n ++ "\\Enum\\USBSTOR"]) := by
      unfold storage_run_slice
      rw [hresOk select n hl]
    have hb : bam_run_slice select =
        (true, ["ControlSet" ++ pyFormat03 n ++ "\\Services\\bam\\State\\UserSettings"]) := by
      unfold bam_run_slice
      rw [hresOk select n hl]
    have ho : os_info_run_slice select =
        (true,
          ["ControlSet" ++ pyFormat03 n ++ "\\Control\\ComputerName\\ComputerName",
           "ControlSet" ++ pyFormat03 n ++ "\\Control\\TimeZoneInformation"]) := by
      unfold os_info_run_slice os_info_cs_slice get_value
      rw [hl]
      simp only [Option.getD]
      rw [if_pos (show 0 < n by omega)]
    have hs2 : (storage_run_slice select).2 =
        ["ControlSet" ++ pyFormat03 n ++ "\\Enum\\USB",
         "ControlSet" ++ pyFormat03 n ++ "\\Enum\\SCSI",
         "ControlSet" ++ pyFormat03 n ++ "\\Enum\\USBSTOR"] := by rw [hs]
    have hb2 : (bam_run_slice select).2 =
        ["ControlSet" ++ pyFormat03 n ++ "\\Services\\bam\\State\\UserSettings"] := by rw [hb]
    have ho2 : (os_info_run_slice select).2 =
        ["ControlSet" ++ pyFormat03 n ++ "\\Control\\ComputerName\\ComputerName",
         "ControlSet" ++ pyFormat03 n ++ "\\Control\\TimeZoneInformation"] := by rw [ho]
    refine ⟨by rw [hs], by rw [hb], by rw [ho], ?_, hdig.1, hdig.2.1, hdig.2.2⟩
    intro p hp
    rw [hs2, hb2, ho2] at hp
    have hstep : ∀ sfx : String,
        pyStartsWith ("ControlSet" ++ pyFormat03 n ++ sfx) ("ControlSet" ++ pyFormat03 n) =
          true := by
      intro sfx
      exact pyStartsWith_append _ _
    simp only [List.append_assoc, List.cons_append, List.nil_append, List.mem_cons,
      List.not_mem_nil, or_false] at hp
    rcases hp with h | h | h | h | h | h <;> (rw [h]; exact hstep _)

/-- Claim C1 witness: the amended theorem applied at concrete `Select`
value lists — a list without a `Current` value, one with a string
payload, and one holding the integer 2. -/
theorem c1_control_set_amended_witness :
    (storage_run_slice [("Default", RegVal.vInt 1)] = (false, []) ∧
      bam_run_slice [("Default", RegVal.vInt 1)] = (false, [])) ∧
    os_info_run_slice [("Default", RegVal.vInt 1)] = (true, []) ∧
    os_info_run_slice [("Current", RegVal.vStr "2")] = (false, []) ∧
    (storage_run_slice [("Current", RegVal.vInt 2)]).1 = true ∧
    (∀ p ∈ (storage_run_slice [("Current", RegVal.vInt 2)]).2 ++
        (bam_run_slice [("Current", RegVal.vInt 2)]).2 ++
        (os_info_run_slice [("Current", RegVal.vInt 2)]).2,
      pyStartsWith p ("ControlSet" ++ pyFormat03 2) = true) ∧
    pyFormat03 2 ≠ "000" := by
  have hnone : List.lookup "Current" [("Default", RegVal.vInt 1)] = none := by decide
  have h4 :=
    c1_control_set_amended.2.2.2 [("Current", RegVal.vInt 2)] 2 (by decide) (by decide)
      (by decide)
  exact
    ⟨c1_control_set_amended.1 [("Default", RegVal.vInt 1)]
       (fun n h => by rw [hnone] at h; cases h),
     c1_control_set_amended.2.1 [("Default", RegVal.vInt 1)] hnone,
     c1_control_set_amended.2.2.1 [("Current", RegVal.vStr "2")] (RegVal.vStr "2") (by decide)
       (fun n h => nomatch h),
     h4.1, h4.2.2.2.1, h4.2.2.2.2.2.2⟩

/-! ## Claim C3 -/

/-- A joined row always carries the guid string of the signature it came
from. -/
theorem sig_join_guid {profiles : List (String × ProfileInfo)} {s : RegKeySlim}
    {r : NetworkHistoryRow} (h : sig_join profiles s = some r) :
    sigGuid s = RegVal.vStr r.profileGuid := by
  cases hg : sigGuid s with
  | vStr g =>
    simp only [sig_join, hg] at h
    cases hl : profiles.lookup g with
    | none => rw [hl] at h; simp at h
    | some p =>
      rw [hl] at h
      simp only [Option.some.injEq] at h
      subst h
      rfl
  | vInt k => simp only [sig_join, hg] at h; cases h
  | vBytes b => simp only [sig_join, hg] at h; cases h
  | vStrList l => simp only [sig_join, hg] at h; cases h

/-- A signature joins exactly when its guid payload is a string present
among the profile-map keys. -/
theorem sig_join_isSome (profiles : List (String × ProfileInfo)) (s : RegKeySlim) :
    (sig_join profiles s).isSome =
      (match sigGuid s with
       | RegVal.vStr g => (profiles.lookup g).isSome
       | _ => false) := by
  cases hgg : sigGuid s with
  | vStr g =>
    cases hl : profiles.lookup g with
    | none => simp [sig_join, hgg, hl]
    | some p => simp [sig_join, hgg, hl]
  | vInt k => simp [sig_join, hgg]
  | vBytes b => simp [sig_join, hgg]
  | vStrList l => simp [sig_join, hgg]

/-- Claim C3: the correlator scans the Unmanaged namespace then the
Managed namespace and emits exactly one joined row per signature whose
referenced profile identifier is a key of the metadata map (first and
second conjuncts); consequently a profile that has metadata but no
signature referencing it in either namespace gets zero joined records
(third conjunct). -/
theorem c3_network_profile_correlation :
    (∀ (profiles : List (String × ProfileInfo)) (u m : List RegKeySlim),
        network_history_rows profiles (some u) (some m) =
          (u ++ m).filterMap (sig_join profiles)) ∧
    (∀ (profiles : List (String × ProfileInfo)) (u m : List RegKeySlim),
        (network_history_rows profiles (some u) (some m)).length =
          ((u ++ m).filter fun s =>
            match sigGuid s with
            | RegVal.vStr g => (profiles.lookup g).isSome
            | _ => false).length) ∧
    (∀ (profiles : List (String × ProfileInfo)) (u m : List RegKeySlim) (g : String),
        (profiles.lookup g).isSome = true →
        (∀ s ∈ u ++ m, sigGuid s ≠ RegVal.vStr g) →
        ∀ r ∈ network_history_rows profiles (some u) (some m), r.profileGuid ≠ g) := by
  have h1 : ∀ (profiles : List (String × ProfileInfo)) (u m : List RegKeySlim),
      network_history_rows profiles (some u) (some m) =
        (u ++ m).filterMap (sig_join profiles) := by
    intro profiles u m
    unfold network_history_rows
    rw [List.filterMap_append]
  refine ⟨h1, ?_, ?_⟩
  · intro profiles u m
    rw [h1, length_filterMap_eq]
    have heq : (u ++ m).filter (fun s => (sig_join profiles s).isSome) =
        (u ++ m).filter (fun s =>
          match sigGuid s with
          | RegVal.vStr g => (profiles.lookup g).isSome
          | _ => false) :=
      List.filter_congr (fun s _ => sig_join_isSome profiles s)
    rw [heq]
  · intro profiles u m g hg hno r hr heq
    rw [h1] at hr
    obtain ⟨s, hs, hjoin⟩ := List.mem_filterMap.mp hr
    apply hno s hs
    rw [sig_join_guid hjoin, heq]

/-- Claim C3 witness: the theorem applied to a concrete fixture — one
profile with metadata under key guid1 and one signature referencing
guid2 only, in the Unmanaged namespace; the profile guid1 yields zero
joined records. -/
theorem c3_network_profile_correlation_witness :
    (List.lookup "guid1"
        (build_profiles_map
          [⟨"guid1", [("ProfileName", RegVal.vStr "HomeWiFi")]⟩])).isSome = true ∧
    (∀ s ∈ ([⟨"sig1", [("ProfileGuid", RegVal.vStr "guid2")]⟩] ++ ([] : List RegKeySlim)),
        sigGuid s ≠ RegVal.vStr "guid1") ∧
    (∀ r ∈ network_history_rows
        (build_profiles_map [⟨"guid1", [("ProfileName", RegVal.vStr "HomeWiFi")]⟩])
        (some [⟨"sig1", [("ProfileGuid", RegVal.vStr "guid2")]⟩]) (some []),
      r.profileGuid ≠ "guid1") := by
  refine ⟨by decide, by decide, ?_⟩
  exact
    c3_network_profile_correlation.2.2
      (build_profiles_map [⟨"guid1", [("ProfileName", RegVal.vStr "HomeWiFi")]⟩])
      [⟨"sig1", [("ProfileGuid", RegVal.vStr "guid2")]⟩] [] "guid1" (by decide) (by decide)

/-! ## Claim C7 -/

/-- Claim C7: the identity resolver replaces backslashes with forward
slashes, substitutes the system-root token, strips a case-insensitive
leading drive-letter prefix, strips separators, re-roots under the image
root and normalizes (fourth conjunct, the pipeline in source order);
the username is the final component of the resolved path (second
conjunct); the drive-letter strip accepts any ASCII letter (third
conjunct); and the worked example resolves to
/mnt/img/Windows/Users/Alice with username Alice (first conjunct). -/
theorem c7_profile_path_resolution :
    resolve_profile_path "/mnt/img" "%SystemRoot%\\Users\\Alice" =
      ("/mnt/img/Windows/Users/Alice", "Alice") ∧
    (∀ root raw : String,
        (resolve_profile_path root raw).2 = posixBasename (resolve_profile_path root raw).1) ∧
    (∀ (c : Char) (rest : String), c.isAlpha = true →
        stripDrive ⟨c :: ':' :: '/' :: rest.data⟩ = rest) ∧
    (∀ root raw : String,
        (resolve_profile_path root raw).1 =
          posixNormpath (posixJoin2 root (pyStripSlash (stripDrive
            (pyReplace (pyReplace (pyReplace raw "\\" "/") "%SystemRoot%" "Windows")
              "%systemroot%" "Windows"))))) := by
  refine ⟨?_, ?_, ?_, ?_⟩
  · have e1 : pyReplace "%SystemRoot%\\Users\\Alice" "\\" "/" = "%SystemRoot%/Users/Alice" := by
      decide
    have e2 : pyReplace "%SystemRoot%/Users/Alice" "%SystemRoot%" "Windows" =
        "Windows/Users/Alice" := by decide
    have e3 : pyReplace "Windows/Users/Alice" "%systemroot%" "Windows" =
        "Windows/Users/Alice" := by decide
    have e4 : stripDrive "Windows/Users/Alice" = "Windows/Users/Alice" := by decide
    have e5 : pyStripSlash "Windows/Users/Alice" = "Windows/Users/Alice" := by decide
    have e6 : posixJoin2 "/mnt/img" "Windows/Users/Alice" = "/mnt/img/Windows/Users/Alice" := by
      decide
    have e7 : posixNormpath "/mnt/img/Windows/Users/Alice" =
        "/mnt/img/Windows/Users/Alice" := by decide
    have e8 : posixBasename "/mnt/img/Windows/Users/Alice" = "Alice" := by decide
    simp only [resolve_profile_path]
    rw [e1, e2, e3, e4, e5, e6, e7, e8]
  · intro root raw
    simp only [resolve_profile_path]
  · intro c rest hc
    simp only [stripDrive, hc, if_true]
  · intro root raw
    simp only [resolve_profile_path]

/-- Claim C7 witness: the theorem applied at the drive letter C and the
remainder Users/Bob. -/
theorem c7_profile_path_resolution_witness :
    Char.isAlpha 'C' = true ∧
    stripDrive ⟨'C' :: ':' :: '/' :: "Users/Bob".data⟩ = "Users/Bob" :=
  ⟨by decide, c7_profile_path_resolution.2.2.1 'C' "Users/Bob" (by decide)⟩

/-! ## Claim C9 -/

/-- Claim C9 counterexample: a buffer whose single chunk declares 16
bytes while only 8 remain (a structural inconsistency) is decoded by
silent truncation — the result is the partial path "AB", not the
"[Parsing Error]" marker. -/
theorem c9_counterexample :
    parse_shell_item_path [0x10, 0x00, 0x2f, 0x41, 0x42, 0x00, 0x00, 0x00] = "AB" ∧
    "AB" ≠ "[Parsing Error]" ∧ "AB" ≠ "[Invalid Data]" ∧
    ([0x10, 0x00, 0x2f, 0x41, 0x42, 0x00, 0x00, 0x00] : List Nat).length < 0 + 0x10 := by
  decide

/-- On a structurally well-formed buffer the loop always stops cleanly
with its collected segments — no exception path is taken. -/
theorem shellLoopAux_ok_of_wf (data : List Nat) :
    ∀ offset : Nat, ShellWF data offset → ∀ (f : Nat) (acc : List String),
      data.length - offset < f →
      ∃ parts, shellLoopAux data f offset acc = some (.ok parts) := by
  intro offset hwf
  induction hwf with
  | done offset h =>
    intro f acc hf
    cases f with
    | zero => omega
    | succ g =>
      refine ⟨acc, ?_⟩
      unfold shellLoopAux
      rw [if_neg (by omega)]
  | zero offset h hsz =>
    intro f acc hf
    cases f with
    | zero => omega
    | succ g =>
      refine ⟨acc, ?_⟩
      unfold shellLoopAux
      simp only [if_pos h, hsz]
      rw [if_pos trivial]
  | step offset size h hsz h3 hfit next ih =>
    intro f acc hf
    cases f with
    | zero => omega
    | succ g =>
      obtain ⟨ty, hty⟩ : ∃ ty, (pySlice data offset (offset + size)).get? 2 = some ty := by
        cases hg : (pySlice data offset (offset + size)).get? 2 with
        | none =>
          exfalso
          have hlen : (pySlice data offset (offset + size)).length =
              min (offset + size - offset) (data.length - offset) := by
            simp [pySlice, List.length_take, List.length_drop]
          have := List.get?_eq_none.mp hg
          omega
        | some ty => exact ⟨ty, rfl⟩
      unfold shellLoopAux
      simp only [if_pos h, hsz, if_neg (show ¬ size = 0 by omega), hty]
      exact ih g _ (by omega)

/-- Claim C9 (amended): inputs shorter than four bytes yield the
"[Invalid Data]" marker; every other input yields either the
backslash-join of the loop's decoded segments or the "[Parsing Error]"
marker (raised when a chunk leaves fewer than three bytes for its size
word or type byte); and on a structurally consistent buffer — every
chunk fitting the remaining buffer — the marker is never produced.  A
chunk whose declared size overruns the buffer while at least three
bytes remain is, however, silently truncated (see the counterexample),
so the marker is not guaranteed on every structural inconsistency. -/
theorem c9_shell_path_amended :
    (∀ data : List Nat, data.length < 4 → parse_shell_item_path data = "[Invalid Data]") ∧
    (∀ data : List Nat, 4 ≤ data.length →
        (∃ parts, shellLoopAux data (data.length + 1) 0 [] = some (.ok parts) ∧
          parse_shell_item_path data = String.intercalate "\\" parts) ∨
        parse_shell_item_path data = "[Parsing Error]") ∧
    (∀ data : List Nat, 4 ≤ data.length → ShellWF data 0 →
        ∃ parts, shellLoopAux data (data.length + 1) 0 [] = some (.ok parts) ∧
          parse_shell_item_path data = String.intercalate "\\" parts) := by
  have hclass : ∀ (data : List Nat), 4 ≤ data.length → ∀ parts : List String,
      shellLoopAux data (data.length + 1) 0 [] = some (.ok parts) →
      parse_shell_item_path data = String.intercalate "\\" parts := by
    intro data h4 parts hs
    unfold parse_shell_item_path
    rw [if_neg (by omega), hs]
  refine ⟨?_, ?_, ?_⟩
  · intro data h4
    unfold parse_shell_item_path
    rw [if_pos h4]
  · intro data h4
    have hsome := shellLoopAux_isSome data (data.length + 1) 0 [] (by omega)
    cases hs : shellLoopAux data (data.length + 1) 0 [] with
    | none => rw [hs] at hsome; cases hsome
    | some r =>
      cases r with
      | ok parts => exact Or.inl ⟨parts, rfl, hclass data h4 parts hs⟩
      | error e =>
        right
        unfold parse_shell_item_path
        rw [if_neg (by omega), hs]
  · intro data h4 hwf
    obtain ⟨parts, hp⟩ := shellLoopAux_ok_of_wf data 0 hwf (data.length + 1) [] (by omega)
    exact ⟨parts, hp, hclass data h4 parts hp⟩

/-- Claim C9 witness: the amended theorem applied at a three-byte input,
at a buffer whose second chunk leaves only two bytes, and at a
structurally well-formed one-chunk buffer. -/
theorem c9_shell_path_amended_witness :
    parse_shell_item_path [1, 2, 3] = "[Invalid Data]" ∧
    ((∃ parts, shellLoopAux [0x07, 0x00, 0x2f, 0x43, 0x00, 0x00, 0x00, 0x02, 0x00]
          (([0x07, 0x00, 0x2f, 0x43, 0x00, 0x00, 0x00, 0x02, 0x00] : List Nat).length + 1)
          0 [] = some (.ok parts) ∧
        parse_shell_item_path [0x07, 0x00, 0x2f, 0x43, 0x00, 0x00, 0x00, 0x02, 0x00] =
          String.intercalate "\\" parts) ∨
      parse_shell_item_path [0x07, 0x00, 0x2f, 0x43, 0x00, 0x00, 0x00, 0x02, 0x00] =
        "[Parsing Error]") ∧
    (∃ parts, shellLoopAux [0x08, 0x00, 0x2f, 0x41, 0x00, 0x00, 0x00, 0x00]
        (([0x08, 0x00, 0x2f, 0x41, 0x00, 0x00, 0x00, 0x00] : List Nat).length + 1) 0 [] =
          some (.ok parts) ∧
      parse_shell_item_path [0x08, 0x00, 0x2f, 0x41, 0x00, 0x00, 0x00, 0x00] =
        String.intercalate "\\" parts) :=
  ⟨c9_shell_path_amended.1 [1, 2, 3] (by decide),
   c9_shell_path_amended.2.1 [0x07, 0x00, 0x2f, 0x43, 0x00, 0x00, 0x00, 0x02, 0x00]
     (by decide),
   c9_shell_path_amended.2.2 [0x08, 0x00, 0x2f, 0x41, 0x00, 0x00, 0x00, 0x00] (by decide)
     (ShellWF.step 0 8 (by decide) (by decide) (by decide) (by decide)
       (ShellWF.done 8 (by decide)))⟩

end Regalyzer
